import Mathlib

/-!
Verification of the simple-netconf-client repository.

The development shallowly embeds the parts of the program that the spec
talks about: the JSON configuration manager, the context-managed NETCONF
connection wrapper, the mDNS-SD discovery listener, the static HTTP file
server lifecycle, the connection-parameter validation, and the zoom
handling.  Python dicts are modelled as association lists with string
keys, in which assignment replaces an existing binding in place and
otherwise appends, exactly as dict insertion order behaves.
-/

namespace NetconfClient

/-- Association-list model of a Python dict with string keys. -/
abbrev Dict (α : Type) : Type := List (String × α)

/-- Dict lookup: the value bound to a key, if any. -/
def Dict.lookup {α : Type} : Dict α → String → Option α
  | [], _ => none
  | (k, v) :: t, q => if q = k then some v else Dict.lookup t q

/-- Membership test, modelling the Python expression "key in d". -/
def Dict.contains {α : Type} (d : Dict α) (k : String) : Bool :=
  (d.lookup k).isSome

/-- Dict assignment d[k] = v: replace the binding in place when the key
exists, otherwise append a new binding at the end. -/
def Dict.insert {α : Type} : Dict α → String → α → Dict α
  | [], k, v => [(k, v)]
  | (k0, v0) :: t, k, v =>
      if k = k0 then (k0, v) :: t else (k0, v0) :: Dict.insert t k v

/-- Deletion of a key, modelling "del d[k]" on a dict, whose keys are
unique, so removing every binding of the key is the same operation. -/
def Dict.eraseKey {α : Type} (d : Dict α) (k : String) : Dict α :=
  d.filter (fun kv => kv.1 != k)

theorem Dict.lookup_insert_self {α : Type} (d : Dict α) (k : String) (v : α) :
    (d.insert k v).lookup k = some v := by
  induction d with
  | nil => simp [Dict.insert, Dict.lookup]
  | cons hd t ih =>
      obtain ⟨k0, v0⟩ := hd
      by_cases h : k = k0
      · simp [Dict.insert, Dict.lookup, h]
      · simp [Dict.insert, Dict.lookup, h, ih]

theorem Dict.lookup_insert_ne {α : Type} (d : Dict α) {q k : String} (v : α)
    (h : q ≠ k) : (d.insert k v).lookup q = d.lookup q := by
  induction d with
  | nil => simp [Dict.insert, Dict.lookup, h]
  | cons hd t ih =>
      obtain ⟨k0, v0⟩ := hd
      by_cases h0 : k = k0
      · subst h0
        simp [Dict.insert, Dict.lookup, h]
      · by_cases hq : q = k0
        · simp [Dict.insert, Dict.lookup, h0, hq]
        · simp [Dict.insert, Dict.lookup, h0, hq, ih]

theorem Dict.lookup_eraseKey_self {α : Type} (d : Dict α) (k : String) :
    (d.eraseKey k).lookup k = none := by
  induction d with
  | nil => simp [Dict.eraseKey, Dict.lookup]
  | cons hd t ih =>
      obtain ⟨k0, v0⟩ := hd
      by_cases h : k0 = k
      · subst h
        simpa [Dict.eraseKey, List.filter_cons] using ih
      · have hne : k ≠ k0 := fun hk => h hk.symm
        simp only [Dict.eraseKey, List.filter_cons] at ih ⊢
        simp [h, Dict.lookup, hne]
        simpa [Dict.eraseKey] using ih

/-! Part: Configuration values and the ConfigManager -/

/-- JSON-representable configuration values as they occur in the config. -/
inductive Value : Type
  | str (s : String)
  | int (n : Int)
  | bool (b : Bool)
deriving DecidableEq

/-- Configuration mapping, a flat string-keyed JSON object. -/
abbrev Cfg : Type := Dict Value

/-- ConfigManager.default_cfg from the source. -/
def default_cfg : Cfg :=
  [ ("addr", .str ""),
    ("port", .int 830),
    ("user", .str "admin"),
    ("pass", .str ""),
    ("ssh-agent", .bool true),
    ("theme", .str "System"),
    ("zoom", .str "100%"),
    ("server_iface", .str "virbr0"),
    ("server_enabled", .bool false),
    ("server_path", .str ""),
    ("server_port", .int 8080) ]

/-- One step of ConfigManager.merge_defaults: a default key is written
only when the key is not already in the mapping. -/
def mergeStep {α : Type} (acc : Dict α) (kv : String × α) : Dict α :=
  if acc.contains kv.1 then acc else acc.insert kv.1 kv.2

/-- ConfigManager.merge_defaults: iterate over default_cfg.items() and
fill in each key that is missing from the mapping. -/
def ConfigManager.merge_defaults (cfg : Cfg) : Cfg :=
  default_cfg.foldl mergeStep cfg

/-- ConfigManager.save: json.dump of the current mapping to the dotfile.
The file is modelled by the mapping it stores; dumping and re-parsing a
string-keyed JSON object yields the same mapping. -/
def ConfigManager.save (cfg : Cfg) : Option Cfg :=
  some cfg

/-- ConfigManager.load: when the dotfile exists its contents replace the
current mapping, otherwise the current mapping is kept; defaults are
merged in either way. -/
def ConfigManager.load (file : Option Cfg) (cur : Cfg) : Cfg :=
  match file with
  | some loaded => ConfigManager.merge_defaults loaded
  | none => ConfigManager.merge_defaults cur

theorem foldl_mergeStep_preserves {α : Type} (l : List (String × α))
    (d : Dict α) (k : String) (v : α) (h : d.lookup k = some v) :
    (l.foldl mergeStep d).lookup k = some v := by
  induction l generalizing d with
  | nil => simpa using h
  | cons kv t ih =>
      refine ih (mergeStep d kv) ?_
      unfold mergeStep
      by_cases hc : d.contains kv.1 = true
      · simpa [hc] using h
      · have hne : k ≠ kv.1 := by
          intro hk
          subst hk
          simp [Dict.contains, h] at hc
        simp only [hc, if_neg, Bool.not_eq_true] at *
        simpa [Dict.lookup_insert_ne d kv.2 hne] using h

theorem foldl_mergeStep_isSome {α : Type} (l : List (String × α))
    (d : Dict α) (k : String) (h : (d.lookup k).isSome = true) :
    ((l.foldl mergeStep d).lookup k).isSome = true := by
  obtain ⟨v, hv⟩ := Option.isSome_iff_exists.mp h
  simp [foldl_mergeStep_preserves l d k v hv]

theorem foldl_mergeStep_mem {α : Type} (l : List (String × α))
    (d : Dict α) (kv : String × α) (h : kv ∈ l) :
    ((l.foldl mergeStep d).lookup kv.1).isSome = true := by
  induction l generalizing d with
  | nil => cases h
  | cons hd t ih =>
      rcases List.mem_cons.mp h with h1 | h2
      · subst h1
        refine foldl_mergeStep_isSome t (mergeStep d kv) kv.1 ?_
        unfold mergeStep
        by_cases hc : d.contains kv.1 = true
        · rw [if_pos hc]
          simpa [Dict.contains] using hc
        · rw [if_neg hc]
          simp [Dict.lookup_insert_self]
      · exact ih (mergeStep d hd) h2

theorem foldl_mergeStep_missing {α : Type} (l : List (String × α))
    (d : Dict α) (k : String) (h : d.lookup k = none) :
    (l.foldl mergeStep d).lookup k = Dict.lookup l k := by
  induction l generalizing d with
  | nil => simpa [Dict.lookup] using h
  | cons kv t ih =>
      obtain ⟨k0, v0⟩ := kv
      by_cases hk : k = k0
      · subst hk
        have hc : d.contains k = false := by simp [Dict.contains, h]
        have : mergeStep d (k, v0) = d.insert k v0 := by
          simp [mergeStep, hc]
        simp only [List.foldl_cons, this]
        have : (d.insert k v0).lookup k = some v0 := Dict.lookup_insert_self d k v0
        simp [foldl_mergeStep_preserves t _ k v0 this, Dict.lookup]
      · have step : (mergeStep d (k0, v0)).lookup k = none := by
          unfold mergeStep
          by_cases hc : d.contains k0 = true
          · simpa [hc] using h
          · simpa [hc, Dict.lookup_insert_ne d v0 hk] using h
        simp only [List.foldl_cons]
        rw [ih _ step]
        simp [Dict.lookup, hk]

/-- The eleven keys of the default template, as listed in the claim. -/
def defaultKeys : List String :=
  [ "addr", "port", "user", "pass", "ssh-agent", "theme", "zoom",
    "server_iface", "server_enabled", "server_path", "server_port" ]

/-- C1: after ConfigManager.load of an existing dotfile, every key of the
default template is present in the resulting mapping, every key of the
loaded mapping keeps its loaded value, and a key missing from the loaded
mapping gets exactly the default value for that key. -/
theorem configManager_load_merges_defaults (loaded cur : Cfg) :
    (∀ k, k ∈ defaultKeys →
        ((ConfigManager.load (some loaded) cur).lookup k).isSome = true)
    ∧ (∀ k v, loaded.lookup k = some v →
        (ConfigManager.load (some loaded) cur).lookup k = some v)
    ∧ (∀ k, loaded.lookup k = none →
        (ConfigManager.load (some loaded) cur).lookup k = default_cfg.lookup k) := by
  refine ⟨?_, ?_, ?_⟩
  · intro k hk
    have hk2 : k ∈ default_cfg.map Prod.fst := by
      simpa [defaultKeys, default_cfg] using hk
    obtain ⟨kv, hmem, hfst⟩ := List.mem_map.mp hk2
    have := foldl_mergeStep_mem default_cfg loaded kv hmem
    rw [hfst] at this
    simpa [ConfigManager.load, ConfigManager.merge_defaults] using this
  · intro k v hv
    simpa [ConfigManager.load, ConfigManager.merge_defaults] using
      foldl_mergeStep_preserves default_cfg loaded k v hv
  · intro k hk
    simpa [ConfigManager.load, ConfigManager.merge_defaults] using
      foldl_mergeStep_missing default_cfg loaded k hk

/-- C1 witness: a concrete old-style config file holding only an address
and a stale extra key gains the missing default keys, keeps its address,
and receives the default port. -/
theorem configManager_load_merges_defaults_witness :
    (((ConfigManager.load (some [("addr", .str "10.0.0.1"), ("legacy", .int 1)])
        []).lookup "server_port").isSome = true)
    ∧ ((ConfigManager.load (some [("addr", .str "10.0.0.1"), ("legacy", .int 1)])
        []).lookup "addr" = some (.str "10.0.0.1"))
    ∧ ((ConfigManager.load (some [("addr", .str "10.0.0.1"), ("legacy", .int 1)])
        []).lookup "port" = default_cfg.lookup "port") := by
  obtain ⟨h1, h2, h3⟩ :=
    configManager_load_merges_defaults
      [("addr", .str "10.0.0.1"), ("legacy", .int 1)] []
  exact ⟨h1 "server_port" (by decide), h2 "addr" (.str "10.0.0.1") rfl,
    h3 "port" rfl⟩

/-- C2: saving the configuration and loading it back yields a mapping
that agrees with the saved one on every key of the saved mapping. -/
theorem config_save_load_roundtrip (cfg cur : Cfg) (k : String) (v : Value)
    (h : cfg.lookup k = some v) :
    (ConfigManager.load (ConfigManager.save cfg) cur).lookup k = some v := by
  simpa [ConfigManager.save, ConfigManager.load, ConfigManager.merge_defaults]
    using foldl_mergeStep_preserves default_cfg cfg k v h

/-- C2 witness: a concrete config with a customised port round-trips
through save and load. -/
theorem config_save_load_roundtrip_witness :
    (ConfigManager.load
      (ConfigManager.save [("addr", .str "192.168.2.200"), ("port", .int 2022)])
      []).lookup "port" = some (.int 2022) :=
  config_save_load_roundtrip
    [("addr", .str "192.168.2.200"), ("port", .int 2022)] [] "port"
    (.int 2022) rfl

/-! Part: NetconfConnection context manager -/

/-- Outcome of the library call manager.connect inside enter. -/
inductive ConnectOutcome : Type
  | success (session : Nat)
  | authError (err : String)
  | sshError (err : String)
  | otherError (err : String)
deriving DecidableEq

/-- Result of running NetconfConnection enter: the stored manager
attribute, whether enter returned a value (some r) or let an exception
propagate (none), and the error message written to the status bar. -/
structure EnterResult : Type where
  manager : Option Nat
  returned : Option (Option Nat)
  errorMsg : Option String
deriving DecidableEq

/-- The status message emitted at the top of enter. -/
def connectingMsg (host port : String) : String :=
  "Connecting to " ++ host ++ " port " ++ port ++ ", please wait ..."

/-- NetconfConnection enter: connect and return the manager; an
AuthenticationError or SSHError is caught and reported, after which the
method falls off the end and returns None; any other exception is
reported and then re-raised. -/
def NetconfConnection.enter (host port : String) :
    ConnectOutcome → EnterResult
  | .success s => ⟨some s, some (some s), none⟩
  | .authError e =>
      ⟨none, some none, some ("Authentication with " ++ host ++ " failed: " ++ e)⟩
  | .sshError e =>
      ⟨none, some none,
        some ("SSH connection to " ++ host ++ ":" ++ port ++ " failed: " ++ e)⟩
  | .otherError e =>
      ⟨none, none, some ("An unexpected error occurred: " ++ e)⟩

/-- NetconfConnection exit: close_session is called on the manager
exactly when the manager attribute is not None; returns the sessions
closed. -/
def NetconfConnection.exitCloses (manager : Option Nat) : List Nat :=
  match manager with
  | some s => [s]
  | none => []

/-- Python with-statement semantics around the connection: if enter
raised, exit is not called and the exception propagates; otherwise exit
is always called when the block is left, whether or not the body raised.
Returns the sessions closed and whether an exception left the block. -/
def NetconfConnection.withRun (host port : String) (o : ConnectOutcome)
    (bodyRaises : Bool) : List Nat × Bool :=
  match (NetconfConnection.enter host port o).returned with
  | none => ([], true)
  | some _ =>
      (NetconfConnection.exitCloses (NetconfConnection.enter host port o).manager,
       bodyRaises)

/-- Outcome of the RPC dispatch inside execute_netconf_command. -/
inductive RpcOutcome : Type
  | ok (respText : String)
  | notOk (respText : String)
  | raises (err : String)
deriving DecidableEq

/-- The try/except block around the dispatch in execute_netconf_command:
a response with ok is shown, a response without ok is reported with its
text, and every exception is caught and reported with a fixed message;
the second component records whether an exception propagates (never). -/
def execute_netconf_rpc : RpcOutcome → Option String × Bool
  | .ok _ => (none, false)
  | .notOk respText => (some respText, false)
  | .raises _ => (some "Command failed! Check connection parameters.", false)

/-- C3 counterexample: on an unexpected connect error the handler writes
the unexpected-error message to the status bar but then re-raises, so
the exception does propagate out of enter, contrary to the claim that no
exception propagates out of the handler. -/
theorem netconf_enter_reraises_unexpected :
    (NetconfConnection.enter "example.com" "830" (.otherError "boom")).returned
      = none
    ∧ (NetconfConnection.enter "example.com" "830" (.otherError "boom")).errorMsg
      = some "An unexpected error occurred: boom" :=
  ⟨rfl, rfl⟩

/-- C3 amended: authentication and SSH failures during connect are
caught and surfaced only as the two corresponding status-bar messages,
with enter returning None; an unexpected connect error is surfaced as
the unexpected-error message but is then re-raised and propagates out of
enter; every exception raised by the RPC dispatch itself is caught in
the handler and surfaced as a status-bar message, with nothing
propagating. -/
theorem netconf_error_handling_amended (host port e : String) (r : RpcOutcome) :
    ((NetconfConnection.enter host port (.authError e)).returned = some none
      ∧ (NetconfConnection.enter host port (.authError e)).errorMsg
          = some ("Authentication with " ++ host ++ " failed: " ++ e))
    ∧ ((NetconfConnection.enter host port (.sshError e)).returned = some none
      ∧ (NetconfConnection.enter host port (.sshError e)).errorMsg
          = some ("SSH connection to " ++ host ++ ":" ++ port ++ " failed: " ++ e))
    ∧ ((NetconfConnection.enter host port (.otherError e)).returned = none
      ∧ (NetconfConnection.enter host port (.otherError e)).errorMsg
          = some ("An unexpected error occurred: " ++ e))
    ∧ (execute_netconf_rpc r).2 = false
    ∧ (∀ err, r = .raises err →
        (execute_netconf_rpc r).1
          = some "Command failed! Check connection parameters.") := by
  refine ⟨⟨rfl, rfl⟩, ⟨rfl, rfl⟩, ⟨rfl, rfl⟩, ?_, ?_⟩
  · cases r <;> rfl
  · intro err hr
    subst hr
    rfl

/-- C3 amended witness: the classification at a concrete host, port,
error text and a raising RPC. -/
theorem netconf_error_handling_amended_witness :
    (NetconfConnection.enter "10.0.0.1" "830" (.authError "bad key")).errorMsg
      = some "Authentication with 10.0.0.1 failed: bad key"
    ∧ (execute_netconf_rpc (.raises "timeout")).1
      = some "Command failed! Check connection parameters." := by
  obtain ⟨⟨_, h1⟩, _, _, _, h5⟩ :=
    netconf_error_handling_amended "10.0.0.1" "830" "bad key" (.raises "timeout")
  exact ⟨h1, h5 "timeout" rfl⟩

/-- C4: when enter succeeded and yielded a session, leaving the
with-block closes exactly that session, whether or not the body raised;
when the connect failed and enter yielded None, exit closes nothing. -/
theorem netconf_exit_closes_session (host port : String) (o : ConnectOutcome)
    (b : Bool) :
    (∀ s, (NetconfConnection.enter host port o).returned = some (some s) →
        (NetconfConnection.withRun host port o b).1 = [s])
    ∧ ((NetconfConnection.enter host port o).returned = some none →
        (NetconfConnection.withRun host port o b).1 = []) := by
  cases o with
  | success s0 =>
      refine ⟨?_, ?_⟩
      · intro s hs
        have : s0 = s := by
          simpa [NetconfConnection.enter] using hs
        subst this
        rfl
      · intro h
        simp [NetconfConnection.enter] at h
  | authError e => exact ⟨fun s hs => by simp [NetconfConnection.enter] at hs,
      fun _ => rfl⟩
  | sshError e => exact ⟨fun s hs => by simp [NetconfConnection.enter] at hs,
      fun _ => rfl⟩
  | otherError e => exact ⟨fun s hs => by simp [NetconfConnection.enter] at hs,
      fun h => by simp [NetconfConnection.enter] at h⟩

/-- C4 witness: a successful connect yielding session 7 closes session 7
even when the body raises, and a failed authentication closes nothing. -/
theorem netconf_exit_closes_session_witness :
    (NetconfConnection.withRun "h" "830" (.success 7) true).1 = [7]
    ∧ (NetconfConnection.withRun "h" "830" (.authError "denied") false).1 = [] :=
  ⟨(netconf_exit_closes_session "h" "830" (.success 7) true).1 7 rfl,
   (netconf_exit_closes_session "h" "830" (.authError "denied") false).2 rfl⟩

/-! Part: Document transmission -/

/-- Tk Text widget read textbox.get from index 1.0 to END: the buffer
contents followed by the trailing newline Tk always appends at END. -/
def textbox_get_all (contents : String) : String :=
  contents ++ "\n"

/-- The literal text before the interpolation hole in the config_data
f-string of execute_put_config. -/
def ncConfigOpen : String :=
  "\n        <nc:config xmlns:nc=\"urn:ietf:params:xml:ns:netconf:base:1.0\">\n            "

/-- The literal text after the interpolation hole in the config_data
f-string of execute_put_config. -/
def ncConfigClose : String :=
  "\n        </nc:config>\n        "

/-- The config_data string built by execute_put_config: the widget text
interpolated between the fixed opening and closing framing. -/
def execute_put_config_data (widgetContents : String) : String :=
  ncConfigOpen ++ textbox_get_all widgetContents ++ ncConfigClose

/-- C5 counterexample: for a concrete widget text, neither the string
handed to the XML parser by the send path (the widget read, which Tk
suffixes with a newline) nor the config_data document built by the
put-configuration path equals the widget contents byte-for-byte. -/
theorem put_config_not_byte_for_byte :
    (textbox_get_all "<x/>" == "<x/>") = false
    ∧ (execute_put_config_data "<x/>" == "<x/>") = false := by
  constructor <;> decide

/-- C5 amended: both paths read the widget with a trailing newline
appended by Tk; the put-configuration path embeds that string verbatim
between a fixed nc:config opening and closing, so the widget contents
always occur verbatim inside the transmitted document, but the document
is never byte-for-byte equal to the contents. -/
theorem transmitted_document_embeds_contents (t : String) :
    execute_put_config_data t
      = ncConfigOpen ++ (t ++ "\n") ++ ncConfigClose
    ∧ List.IsInfix t.data (execute_put_config_data t).data
    ∧ execute_put_config_data t ≠ t
    ∧ textbox_get_all t ≠ t := by
  refine ⟨rfl, ⟨ncConfigOpen.data, ("\n" ++ ncConfigClose).data, ?_⟩, ?_, ?_⟩
  · simp [execute_put_config_data, textbox_get_all, ncConfigOpen, ncConfigClose]
  · intro h
    have hlen := congrArg String.length h
    simp only [execute_put_config_data, textbox_get_all,
      String.length_append] at hlen
    have h3 : ("\n" : String).length = 1 := rfl
    omega
  · intro h
    have hlen := congrArg String.length h
    simp only [textbox_get_all, String.length_append] at hlen
    have h3 : ("\n" : String).length = 1 := rfl
    omega

/-- C5 amended witness: the embedding equation and the infix property at
a concrete widget text. -/
theorem transmitted_document_embeds_contents_witness :
    execute_put_config_data "<x/>"
      = ncConfigOpen ++ ("<x/>" ++ "\n") ++ ncConfigClose
    ∧ List.IsInfix "<x/>".data (execute_put_config_data "<x/>").data :=
  ⟨(transmitted_document_embeds_contents "<x/>").1,
   (transmitted_document_embeds_contents "<x/>").2.1⟩

/-! Part: Static HTTP file server binding -/

/-- The configuration fields the file server reads. -/
structure ServerCfg : Type where
  server_enabled : Bool
  server_iface : String
  server_port : Int
  server_path : String
deriving DecidableEq

/-- Address pair handed to socketserver.TCPServer. -/
structure TCPServerBind : Type where
  host : String
  port : Int
deriving DecidableEq

/-- Result of start_file_server: the bind of the created listening
socket when one was created, the boolean return value, and the status
message written. -/
structure StartServerResult : Type where
  bind : Option TCPServerBind
  returned : Bool
  statusMsg : Option String
deriving DecidableEq

/-- start_file_server: returns False immediately when serving is
disabled; otherwise creates TCPServer(("", port), handler), starts the
serving thread, and reports the configured interface and port in the
status message. -/
def start_file_server (cfg : ServerCfg) : StartServerResult :=
  if !cfg.server_enabled then ⟨none, false, none⟩
  else
    ⟨some ⟨"", cfg.server_port⟩, true,
     some ("HTTP server, serving files on " ++ cfg.server_iface ++ ":"
        ++ toString cfg.server_port)⟩

/-- C6 counterexample: with serving enabled on interface virbr0 port
8080, the socket is bound to the empty host string, the wildcard
address, and not to the configured interface or any address of it, so
the claim that the socket is bound to the configured interface address
fails. -/
theorem file_server_binds_wildcard :
    (start_file_server ⟨true, "virbr0", 8080, ""⟩).bind = some ⟨"", 8080⟩
    ∧ (("" : String) == "virbr0") = false := by
  constructor <;> decide

/-- C6 amended: whenever the file server is started with serving
enabled, the listening socket is bound to the wildcard address, the
empty host string, together with the configured port; the configured
interface name appears only in the status message. -/
theorem file_server_bind_amended (cfg : ServerCfg)
    (h : cfg.server_enabled = true) :
    (start_file_server cfg).bind = some ⟨"", cfg.server_port⟩
    ∧ (start_file_server cfg).returned = true
    ∧ (start_file_server cfg).statusMsg
        = some ("HTTP server, serving files on " ++ cfg.server_iface ++ ":"
            ++ toString cfg.server_port) := by
  simp [start_file_server, h]

/-- C6 amended witness: the concrete default-like configuration. -/
theorem file_server_bind_amended_witness :
    (start_file_server ⟨true, "eth0", 8080, "/srv"⟩).bind = some ⟨"", 8080⟩ :=
  (file_server_bind_amended ⟨true, "eth0", 8080, "/srv"⟩ rfl).1

/-! Part: Zeroconf discovery listener -/

/-- The fields of a resolved zeroconf service info record that the
listener reads; addresses are already rendered as dotted-quad strings,
as socket.inet_ntoa produces them, and a missing server name is the
empty string. -/
structure ServiceInfo : Type where
  server : String
  addresses : List String
  port : Int
deriving DecidableEq

/-- A discovered-device entry: hostname, address and port. -/
abbrev DeviceEntry : Type := String × String × Int

/-- The hostname chosen by add_service: info.server when truthy, the
service name otherwise. -/
def hostnameOf (info : ServiceInfo) (name : String) : String :=
  if info.server ≠ "" then info.server else name

/-- ZeroconfListener.add_service: when the service info resolves, write
devices[name] = (hostname, address, info.port) once per address; when it
does not resolve, leave the mapping unchanged. -/
def ZeroconfListener.add_service (devices : Dict DeviceEntry)
    (info : Option ServiceInfo) (name : String) : Dict DeviceEntry :=
  match info with
  | none => devices
  | some i =>
      i.addresses.foldl
        (fun d address => d.insert name (hostnameOf i name, address, i.port))
        devices

/-- ZeroconfListener.remove_service: delete the entry for the service
name when it is present, otherwise do nothing. -/
def ZeroconfListener.remove_service (devices : Dict DeviceEntry)
    (name : String) : Dict DeviceEntry :=
  if devices.contains name then devices.eraseKey name else devices

theorem foldl_insert_addresses (name hn : String) (p : Int)
    (l : List String) (d : Dict DeviceEntry) (h : l ≠ []) :
    ∃ a, a ∈ l ∧
      (l.foldl (fun d address => d.insert name (hn, address, p)) d).lookup name
        = some (hn, a, p) := by
  induction l generalizing d with
  | nil => cases h rfl
  | cons a t ih =>
      cases t with
      | nil =>
          exact ⟨a, by simp, by simp [Dict.lookup_insert_self]⟩
      | cons b t2 =>
          obtain ⟨a2, hmem, hlook⟩ := ih (d.insert name (hn, a, p)) (by simp)
          exact ⟨a2, by simp [hmem], hlook⟩

/-- C7: after an add_service callback whose info resolves with at least
one address, the mapping holds for that service name an entry made of
the chosen hostname, one of the resolved addresses and the service port,
where the hostname is the server name of the info when it is non-empty
and the service name otherwise; after a remove_service callback the
mapping holds no entry for that name, whether or not one was present. -/
theorem zeroconf_listener_devices (devices : Dict DeviceEntry)
    (i : ServiceInfo) (name : String) (h : i.addresses ≠ []) :
    (∃ a, a ∈ i.addresses ∧
      (ZeroconfListener.add_service devices (some i) name).lookup name
        = some (hostnameOf i name, a, i.port))
    ∧ (i.server ≠ "" → hostnameOf i name = i.server)
    ∧ (i.server = "" → hostnameOf i name = name)
    ∧ (∀ d n, (ZeroconfListener.remove_service d n).lookup n = none) := by
  refine ⟨?_, ?_, ?_, ?_⟩
  · simpa [ZeroconfListener.add_service] using
      foldl_insert_addresses name (hostnameOf i name) i.port i.addresses
        devices h
  · intro hs
    simp [hostnameOf, hs]
  · intro hs
    simp [hostnameOf, hs]
  · intro d n
    unfold ZeroconfListener.remove_service
    by_cases hc : d.contains n = true
    · rw [if_pos hc]
      exact Dict.lookup_eraseKey_self d n
    · rw [if_neg hc]
      cases hl : d.lookup n with
      | none => rfl
      | some v => exact absurd (by simp [Dict.contains, hl]) hc

/-- C7 witness: a concrete resolved service with two addresses lands in
the mapping with its server name and one of the addresses, and a
remove_service for a present name deletes the entry. -/
theorem zeroconf_listener_devices_witness :
    (∃ a, a ∈ ["192.168.2.200", "10.0.0.9"] ∧
      (ZeroconfListener.add_service []
        (some ⟨"infix.local.", ["192.168.2.200", "10.0.0.9"], 830⟩)
        "device._netconf-ssh._tcp.local.").lookup
          "device._netconf-ssh._tcp.local."
        = some ("infix.local.", a, 830))
    ∧ (ZeroconfListener.remove_service [("svc", ("h", "1.2.3.4", 830))]
        "svc").lookup "svc" = none := by
  obtain ⟨h1, _, _, h4⟩ :=
    zeroconf_listener_devices []
      ⟨"infix.local.", ["192.168.2.200", "10.0.0.9"], 830⟩
      "device._netconf-ssh._tcp.local." (by decide)
  refine ⟨?_, h4 [("svc", ("h", "1.2.3.4", 830))] "svc"⟩
  simpa [hostnameOf] using h1

/-! Part: File server lifecycle: start and restart -/

/-- The server attribute of the application object: never assigned,
assigned and shut down, or assigned and serving.  A TCPServer object is
truthy whether or not it is serving. -/
inductive ServerAttr : Type
  | unset
  | stopped
  | running
deriving DecidableEq

/-- The application state the lifecycle methods touch. -/
structure FsState : Type where
  server : ServerAttr
  server_enabled : Bool
deriving DecidableEq

/-- start_file_server as a state transition: returns False at once when
serving is disabled, leaving the server attribute untouched; otherwise
assigns a new serving TCPServer to the attribute and returns True. -/
def fs_start (st : FsState) : FsState × Bool :=
  if !st.server_enabled then (st, false)
  else ({ st with server := .running }, true)

/-- restart_file_server: evaluates the truthiness of self.server, which
raises AttributeError when the attribute was never assigned; otherwise
shuts the server down, closes its socket, and calls start_file_server. -/
def fs_restart (st : FsState) : Except String (FsState × Bool) :=
  match st.server with
  | .unset => .error "AttributeError"
  | _ => .ok (fs_start { st with server := .stopped })

/-- Application launch: init calls start_file_server once, starting from
a state in which the server attribute was never assigned. -/
def fs_launch (enabled : Bool) : FsState :=
  (fs_start ⟨.unset, enabled⟩).1

/-- C8 counterexample: launched with serving disabled, so that no server
was ever started, restart_file_server evaluates self.server and raises
AttributeError instead of completing without error. -/
theorem restart_file_server_attribute_error :
    fs_restart (fs_launch false) = .error "AttributeError" := rfl

/-- C8 amended: when a server has been started at least once since
launch, so that the server attribute exists, restart_file_server shuts
the current server down and closes its socket, then starts a new server
exactly when serving is enabled, returning True iff a server is running
afterwards, all without error; in the never-started state the attribute
does not exist and the call raises AttributeError. -/
theorem restart_file_server_amended (st : FsState)
    (h : st.server ≠ .unset) :
    (∃ st2 b, fs_restart st = .ok (st2, b)
      ∧ b = st.server_enabled
      ∧ (st2.server = .running ↔ b = true)
      ∧ (b = false → st2.server = .stopped)
      ∧ st2.server_enabled = st.server_enabled)
    ∧ (∀ e, fs_restart ⟨.unset, e⟩ = .error "AttributeError") := by
  constructor
  · obtain ⟨sv, en⟩ := st
    simp only at h
    cases sv with
    | unset => exact absurd rfl h
    | stopped =>
        cases en with
        | false =>
            exact ⟨⟨.stopped, false⟩, false, rfl, rfl, by simp, fun _ => rfl, rfl⟩
        | true =>
            exact ⟨⟨.running, true⟩, true, rfl, rfl, by simp, by simp, rfl⟩
    | running =>
        cases en with
        | false =>
            exact ⟨⟨.stopped, false⟩, false, rfl, rfl, by simp, fun _ => rfl, rfl⟩
        | true =>
            exact ⟨⟨.running, true⟩, true, rfl, rfl, by simp, by simp, rfl⟩
  · intro e
    rfl

/-- C8 amended witness: restarting after a launch with serving enabled
succeeds and leaves a running server with return value True. -/
theorem restart_file_server_amended_witness :
    fs_restart (fs_launch true) = .ok (⟨.running, true⟩, true) := by
  obtain ⟨⟨st2, b, h1, h2, h3, _, h5⟩, _⟩ :=
    restart_file_server_amended (fs_launch true) (by decide)
  have hb : b = true := by simpa [fs_launch, fs_start] using h2
  have hrun : st2.server = .running := h3.mpr hb
  have hen : st2.server_enabled = true := by
    simpa [fs_launch, fs_start] using h5
  have hst : st2 = ⟨.running, true⟩ := by
    cases st2
    simp_all
  rw [hst, hb] at h1
  exact h1

/-! Part: Model of the Python int() builtin on strings -/

/-- ASCII whitespace stripped by int() before parsing. -/
def isPyWhitespace (c : Char) : Bool :=
  c = ' ' || c = '\t' || c = '\n' || c = '\r' || c = '\x0b' || c = '\x0c'

/-- Digit run accumulator: decimal digits with single underscores
allowed between two digits, as int() accepts. -/
def pyDigitsGo (acc : Nat) : List Char → Option Nat
  | [] => some acc
  | c :: rest =>
      if c.isDigit then pyDigitsGo (acc * 10 + (c.toNat - 48)) rest
      else if c = '_' then
        match rest with
        | [] => none
        | c2 :: rest2 =>
            if c2.isDigit then pyDigitsGo (acc * 10 + (c2.toNat - 48)) rest2
            else none
      else none

/-- Parse a non-empty digit run; the first character must be a digit. -/
def pyDigits : List Char → Option Nat
  | [] => none
  | c :: rest => if c.isDigit then pyDigitsGo (c.toNat - 48) rest else none

/-- The Python int() builtin applied to a string: strip surrounding
whitespace, accept an optional sign and a decimal digit run, and fail
(raise ValueError) on anything else. -/
def pyInt (s : String) : Option Int :=
  let cs := ((s.data.dropWhile isPyWhitespace).reverse.dropWhile
      isPyWhitespace).reverse
  match cs with
  | '+' :: rest => (pyDigits rest).map (fun n => (n : Int))
  | '-' :: rest => (pyDigits rest).map (fun n => -(n : Int))
  | rest => (pyDigits rest).map (fun n => (n : Int))

/-! Part: Connection-parameter validation -/

/-- The entry-widget values read by save_params. -/
structure ParamEntries : Type where
  addr : String
  port : String
  user : String
  pass : String
  sshAgent : Bool
deriving DecidableEq

/-- is_port_valid: int() the port entry and test 0 < port_num <= 65535;
any exception makes it False. -/
def is_port_valid (portField : String) : Bool :=
  match pyInt portField with
  | some port_num => if 0 < port_num ∧ port_num ≤ 65535 then true else false
  | none => false

/-- Outcome of save_params: which message was emitted. -/
inductive SaveOutcome : Type
  | errorEmpty
  | errorPort
  | saved
deriving DecidableEq

/-- The message save_params reports for each outcome. -/
def save_params_msg : SaveOutcome → String
  | .errorEmpty => "Connection parameters cannot be empty!"
  | .errorPort => "Port must be in range 0-65535"
  | .saved => "Connection parameters updated."

/-- State after save_params: the cfg mapping, the config file, and the
outcome. -/
structure SaveParamsResult : Type where
  cfg : Cfg
  file : Option Cfg
  outcome : SaveOutcome
deriving DecidableEq

/-- save_params: reject when any of the four text entries is empty,
then reject when is_port_valid fails, and otherwise write the five
entry values into cfg and persist it with cfg_mgr.save. -/
def save_params (e : ParamEntries) (cfg : Cfg) (file : Option Cfg) :
    SaveParamsResult :=
  if e.addr = "" || e.port = "" || e.user = "" || e.pass = "" then
    ⟨cfg, file, .errorEmpty⟩
  else if !(is_port_valid e.port) then
    ⟨cfg, file, .errorPort⟩
  else
    let cfg2 :=
      ((((cfg.insert "addr" (.str e.addr)).insert "port"
          (.str e.port)).insert "user" (.str e.user)).insert "pass"
          (.str e.pass)).insert "ssh-agent" (.bool e.sshAgent)
    ⟨cfg2, ConfigManager.save cfg2, .saved⟩

/-- C9: save_params commits and persists the entered parameters exactly
when the four entries are non-empty and the port entry parses as an
integer p with 0 < p and p <= 65535; on any failed check the error
outcome is reported and both cfg and the config file are unchanged; in
particular port 0 is rejected even though the port error message names
the range 0-65535. -/
theorem save_params_validation (e : ParamEntries) (cfg : Cfg)
    (file : Option Cfg) :
    ((save_params e cfg file).outcome = .saved ↔
      (e.addr ≠ "" ∧ e.port ≠ "" ∧ e.user ≠ "" ∧ e.pass ≠ ""
        ∧ ∃ p, pyInt e.port = some p ∧ 0 < p ∧ p ≤ 65535))
    ∧ ((save_params e cfg file).outcome ≠ .saved →
        (save_params e cfg file).cfg = cfg
        ∧ (save_params e cfg file).file = file)
    ∧ ((save_params e cfg file).outcome = .saved →
        (save_params e cfg file).cfg.lookup "addr" = some (.str e.addr)
        ∧ (save_params e cfg file).cfg.lookup "port" = some (.str e.port)
        ∧ (save_params e cfg file).cfg.lookup "user" = some (.str e.user)
        ∧ (save_params e cfg file).cfg.lookup "pass" = some (.str e.pass)
        ∧ (save_params e cfg file).cfg.lookup "ssh-agent"
            = some (.bool e.sshAgent)
        ∧ (save_params e cfg file).file = some (save_params e cfg file).cfg)
    ∧ (is_port_valid "0" = false
        ∧ save_params_msg .errorPort = "Port must be in range 0-65535") := by
  have hvalid : is_port_valid e.port = true ↔
      ∃ p, pyInt e.port = some p ∧ 0 < p ∧ p ≤ 65535 := by
    unfold is_port_valid
    cases hp : pyInt e.port with
    | none => simp
    | some p =>
        by_cases hr : 0 < p ∧ p ≤ 65535
        · simp [hr]
        · simp only [if_neg hr]
          constructor
          · intro hfalse
            cases hfalse
          · rintro ⟨q, hq, h1, h2⟩
            cases hq
            exact absurd ⟨h1, h2⟩ hr
  by_cases hempty : e.addr = "" || e.port = "" || e.user = "" || e.pass = ""
  · refine ⟨?_, ?_, ?_, by decide, rfl⟩
    · simp only [save_params, hempty, if_true]
      constructor
      · intro habs
        cases habs
      · rintro ⟨h1, h2, h3, h4, _⟩
        simp [h1, h2, h3, h4] at hempty
    · intro _
      simp [save_params, hempty]
    · intro habs
      simp only [save_params, hempty, if_true] at habs
      cases habs
  · by_cases hport : is_port_valid e.port = true
    · have hnonempty : e.addr ≠ "" ∧ e.port ≠ "" ∧ e.user ≠ "" ∧ e.pass ≠ "" := by
        simp only [Bool.or_eq_true, decide_eq_true_eq, not_or] at hempty
        exact ⟨hempty.1.1.1, hempty.1.1.2, hempty.1.2, hempty.2⟩
      refine ⟨?_, ?_, ?_, by decide, rfl⟩
      · simp only [save_params, hempty, if_false, Bool.false_eq_true, hport,
          Bool.not_true, if_neg]
        constructor
        · intro _
          exact ⟨hnonempty.1, hnonempty.2.1, hnonempty.2.2.1, hnonempty.2.2.2,
            hvalid.mp hport⟩
        · intro _
          trivial
      · intro habs
        simp [save_params, hempty, hport] at habs
      · intro _
        simp only [save_params, hempty, Bool.false_eq_true, if_false, hport,
          Bool.not_true, if_neg]
        refine ⟨?_, ?_, ?_, ?_, ?_, rfl⟩
        · rw [Dict.lookup_insert_ne _ _ (by decide),
            Dict.lookup_insert_ne _ _ (by decide),
            Dict.lookup_insert_ne _ _ (by decide),
            Dict.lookup_insert_ne _ _ (by decide), Dict.lookup_insert_self]
        · rw [Dict.lookup_insert_ne _ _ (by decide),
            Dict.lookup_insert_ne _ _ (by decide),
            Dict.lookup_insert_ne _ _ (by decide), Dict.lookup_insert_self]
        · rw [Dict.lookup_insert_ne _ _ (by decide),
            Dict.lookup_insert_ne _ _ (by decide), Dict.lookup_insert_self]
        · rw [Dict.lookup_insert_ne _ _ (by decide), Dict.lookup_insert_self]
        · rw [Dict.lookup_insert_self]
    · refine ⟨?_, ?_, ?_, by decide, rfl⟩
      · simp only [save_params, hempty, Bool.false_eq_true, if_false]
        have : (!is_port_valid e.port) = true := by
          simp [Bool.not_eq_true] at hport ⊢
          exact hport
        rw [if_pos this]
        constructor
        · intro habs
          cases habs
        · rintro ⟨_, _, _, _, hp⟩
          exact absurd (hvalid.mpr hp) hport
      · intro _
        have : (!is_port_valid e.port) = true := by
          simp [Bool.not_eq_true] at hport ⊢
          exact hport
        simp [save_params, hempty, this]
      · intro habs
        have : (!is_port_valid e.port) = true := by
          simp [Bool.not_eq_true] at hport ⊢
          exact hport
        simp [save_params, hempty, this] at habs

/-- C9 witness: valid concrete entries are committed and persisted, and
the concrete port entry 0 is rejected. -/
theorem save_params_validation_witness :
    (save_params ⟨"10.0.0.1", "830", "admin", "secret", true⟩ [] none).cfg.lookup
      "addr" = some (.str "10.0.0.1")
    ∧ (save_params ⟨"a", "0", "u", "p", false⟩ [] none).cfg = []
    ∧ is_port_valid "0" = false := by
  obtain ⟨_, _, h3, h4, _⟩ :=
    save_params_validation ⟨"10.0.0.1", "830", "admin", "secret", true⟩ [] none
  obtain ⟨_, h2b, _, _⟩ :=
    save_params_validation ⟨"a", "0", "u", "p", false⟩ [] none
  exact ⟨(h3 (by decide)).1, (h2b (by decide)).1, h4⟩

/-! Part: Zoom handling -/

/-- The Python expression z.replace("%", ""): every occurrence of the
one-character pattern is deleted. -/
def replacePercent (s : String) : String :=
  String.mk (s.data.filter (fun c => c ≠ '%'))

/-- The three zoom menu and keyboard events. -/
inductive ZoomEvent : Type
  | zoomIn
  | zoomOut
  | reset
deriving DecidableEq

/-- One zoom event applied to the zoom_var string: zoom_in_event adds 10
only strictly below 120, zoom_out_event subtracts 10 only strictly above
80, reset_zoom_event sets 100%; none is the uncaught ValueError from
int() on a malformed value. -/
def zoom_step (z : String) : ZoomEvent → Option String
  | .zoomIn =>
      match pyInt (replacePercent z) with
      | none => none
      | some current_zoom =>
          if current_zoom < 120 then
            some (toString (current_zoom + 10) ++ "%")
          else some z
  | .zoomOut =>
      match pyInt (replacePercent z) with
      | none => none
      | some current_zoom =>
          if current_zoom > 80 then
            some (toString (current_zoom - 10) ++ "%")
          else some z
  | .reset => some "100%"

/-- A sequence of zoom events applied from a starting zoom_var value. -/
def zoom_run (z : String) : List ZoomEvent → Option String
  | [] => some z
  | e :: es =>
      match zoom_step z e with
      | none => none
      | some z2 => zoom_run z2 es

/-- The five zoom levels named by the claim. -/
def zoomLevels : List String := ["80%", "90%", "100%", "110%", "120%"]

theorem zoom_step_closed (z : String) (hz : z ∈ zoomLevels) (e : ZoomEvent) :
    ∃ z2, zoom_step z e = some z2 ∧ z2 ∈ zoomLevels := by
  fin_cases hz <;> cases e <;> exact ⟨_, rfl, by decide⟩

/-- C10: starting from any of the five zoom levels, every sequence of
zoom-in, zoom-out and reset events completes without error and keeps the
zoom value inside the five levels. -/
theorem zoom_events_stay_in_range (es : List ZoomEvent) (z : String)
    (hz : z ∈ zoomLevels) :
    ∃ z2, zoom_run z es = some z2 ∧ z2 ∈ zoomLevels := by
  induction es generalizing z with
  | nil => exact ⟨z, rfl, hz⟩
  | cons e t ih =>
      obtain ⟨z1, hstep, hz1⟩ := zoom_step_closed z hz e
      obtain ⟨z2, hrun, hz2⟩ := ih z1 hz1
      exact ⟨z2, by simp [zoom_run, hstep, hrun], hz2⟩

/-- C10 witness: a concrete event sequence from 100% stays in range,
saturating at the 120% ceiling. -/
theorem zoom_events_stay_in_range_witness :
    ∃ z2, zoom_run "100%" [.zoomIn, .zoomIn, .zoomIn, .reset, .zoomOut] = some z2
      ∧ z2 ∈ zoomLevels :=
  zoom_events_stay_in_range [.zoomIn, .zoomIn, .zoomIn, .reset, .zoomOut]
    "100%" (by decide)

end NetconfClient
